import Mathlib

/-
Verification of the btcmap-api reconciliation and reporting pipeline.

The development shallowly embeds the two report/sync evolutions of the
repository:

* `src/sync.rs` - the Overpass reconciliation cycle (deletion pass,
  upsert pass, counter-accumulating report row), embedded as pure
  functions over explicit store state.  Network calls (the secondary
  OSM verification fetch) are passed in as an oracle
  `String -> Option OsmJson`; `std::process::exit(1)` and `panic!`
  become explicit outcome constructors.
* `src/command/generate_reports.rs` - the per-area report generator,
  embedded over an explicit list of report rows.  Point-in-polygon
  tests come from the external `geo` crate, so a geometry is embedded
  as its kind together with an abstract containment predicate.

Timestamps and dates that the Rust code compares as RFC3339 strings are
kept as `String` with lexicographic order (identical to the byte order
Rust uses for `String` comparison on ASCII dates); unix timestamps are
`Int`.
-/

namespace Btcmap

/-- A JSON tag object, `tags` in the OSM payloads: a key/value map,
modelled as an association list with first-match lookup. -/
abbrev TagMap := List (String × String)

/-- Lookup of `obj["tags"][key]` followed by `as_str()`: the value of
the first binding of `k`, if any. -/
def tagGet (tags : TagMap) (k : String) : Option String :=
  (tags.find? (fun p => p.fst == k)).map Prod.snd

/-- The parts of one Overpass/OSM JSON element record that the sync
cycle reads: `type`, `id`, `tags`, optional `uid`, `user` and
`visible` fields.  Structural equality models byte equality of the
serialized payload (serde serialization is injective on values). -/
structure OsmJson where
  osmType : String
  osmId : Int
  tags : TagMap
  uid : Option Int
  user : Option String
  visible : Option Bool
deriving DecidableEq

/-- The btcmap element key `format!("{}:{}", type, id)`. -/
def btcmapId (j : OsmJson) : String := j.osmType ++ ":" ++ toString j.osmId

/-- A stored `element` row as the sync cycle sees it: external key,
raw data payload, soft-deletion timestamp. -/
structure DbElement where
  id : String
  data : OsmJson
  deletedAt : Option String
deriving DecidableEq

/-- One row of the append-only `event` table, with the fields the sync
cycle writes (coordinates are omitted; no claim mentions them). -/
structure EventRow where
  date : String
  elementId : String
  elementName : String
  eventType : String
  userId : Int
  userName : String
deriving DecidableEq

/-- Lexicographic strict order on code points, the order Rust uses to
compare `String` values (identical to byte order on ASCII dates). -/
def charsLt : List Char → List Char → Bool
  | [], [] => false
  | [], _ :: _ => true
  | _ :: _, [] => false
  | a :: as, b :: bs =>
      if a.toNat < b.toNat then true
      else if b.toNat < a.toNat then false
      else charsLt as bs

/-- Rust `a < b` on strings. -/
def strLt (a b : String) : Bool := charsLt a.data b.data

/-- Rust `a <= b` on strings (the order is total, so `<=` is the
negation of the reversed strict order). -/
def strLe (a b : String) : Bool := !(strLt b a)

/-- The up-to-date filter of `sync.rs` lines 327-336: a survey or
check date tag strictly greater (as a string) than the date one year
ago. -/
def upToDateSync (yearAgo : String) (tags : TagMap) : Bool :=
  (match tagGet tags "survey:date" with
   | some v => strLt yearAgo v
   | none => false)
  ||
  (match tagGet tags "check_date" with
   | some v => strLt yearAgo v
   | none => false)

/-- The outdated filter of `sync.rs` lines 338-352, transcribed clause
by clause: (no check_date and (no survey:date or a stale survey:date))
or (no survey:date and (no check_date or a stale check_date)). -/
def outdatedSync (yearAgo : String) (tags : TagMap) : Bool :=
  ((tagGet tags "check_date").isNone
    && ((tagGet tags "survey:date").isNone
        || ((tagGet tags "survey:date").isSome
            && (match tagGet tags "survey:date" with
                | some v => strLe v yearAgo
                | none => false))))
  ||
  ((tagGet tags "survey:date").isNone
    && ((tagGet tags "check_date").isNone
        || ((tagGet tags "check_date").isSome
            && (match tagGet tags "check_date" with
                | some v => strLe v yearAgo
                | none => false))))

/-- The derived stat counts `sync.rs` computes over the fresh dataset
(lines 96-114 and 327-357). -/
structure ReportStats where
  totalElements : Nat
  onchain : Nat
  lightning : Nat
  lightningContactless : Nat
  upToDate : Nat
  outdated : Nat
  legacy : Nat
deriving DecidableEq

/-- The fresh-dataset statistics of `sync.rs`: the payment filters of
lines 96-114 (`tags[k] == "yes"` with `""` default), the up-to-date and
outdated filters, and the legacy filter (a `payment:bitcoin` tag is
present, line 354-357). -/
def computeStats (yearAgo : String) (fs : List OsmJson) : ReportStats :=
  { totalElements := fs.length
    onchain := (fs.filter (fun it => (tagGet it.tags "payment:onchain").getD "" == "yes")).length
    lightning := (fs.filter (fun it => (tagGet it.tags "payment:lightning").getD "" == "yes")).length
    lightningContactless :=
      (fs.filter (fun it => (tagGet it.tags "payment:lightning_contactless").getD "" == "yes")).length
    upToDate := (fs.filter (fun it => upToDateSync yearAgo it.tags)).length
    outdated := (fs.filter (fun it => outdatedSync yearAgo it.tags)).length
    legacy := (fs.filter (fun it => (tagGet it.tags "payment:bitcoin").isSome)).length }

/-- One row of the sync-era `report` table: area key, date, the stat
columns and the cumulative created/updated/deleted counters. -/
structure SyncReport where
  areaId : String
  date : String
  totalElements : Nat
  totalOnchain : Nat
  totalLightning : Nat
  totalLightningContactless : Nat
  upToDateElements : Nat
  outdatedElements : Nat
  legacyElements : Nat
  elementsCreated : Nat
  elementsUpdated : Nat
  elementsDeleted : Nat
deriving DecidableEq

/-- The report write of `sync.rs` lines 367-412.  Modelled from the
spec for the store operations whose SQL lives in the missing `db.rs`:
`REPORT_SELECT_BY_AREA_ID_AND_DATE` selects the row keyed by
`(area_id, date)`, `REPORT_UPDATE_EVENT_COUNTERS` sets the three event
counters of every row with that key (the parameters at lines 381-391
are the cycle counters plus the counters of the row just read), and
`REPORT_INSERT` appends a new row.  If a report for `("", today)`
exists its counters are incremented, otherwise a fresh row with the
dataset stats is inserted. -/
def syncReportStep (reports : List SyncReport) (today : String) (stats : ReportStats)
    (created updated deleted : Nat) : List SyncReport :=
  match reports.find? (fun r => r.areaId == "" && r.date == today) with
  | some r =>
      reports.map (fun q =>
        if q.areaId == "" && q.date == today then
          { q with
              elementsCreated := created + r.elementsCreated
              elementsUpdated := updated + r.elementsUpdated
              elementsDeleted := deleted + r.elementsDeleted }
        else q)
  | none =>
      reports ++ [{ areaId := ""
                    date := today
                    totalElements := stats.totalElements
                    totalOnchain := stats.onchain
                    totalLightning := stats.lightning
                    totalLightningContactless := stats.lightningContactless
                    upToDateElements := stats.upToDate
                    outdatedElements := stats.outdated
                    legacyElements := stats.legacy
                    elementsCreated := created
                    elementsUpdated := updated
                    elementsDeleted := deleted }]

/-- The statement `UPDATE element SET deleted_at = strftime(..) WHERE id = ?`. -/
def setDeleted (db : List DbElement) (id now : String) : List DbElement :=
  db.map (fun e => if e.id == id then { e with deletedAt := some now } else e)

/-- The statement `UPDATE element SET data = ? WHERE id = ?`. -/
def setData (db : List DbElement) (id : String) (d : OsmJson) : List DbElement :=
  db.map (fun e => if e.id == id then { e with data := d } else e)

/-- The statement `UPDATE element SET deleted_at = NULL WHERE id = ?`. -/
def clearDeleted (db : List DbElement) (id : String) : List DbElement :=
  db.map (fun e => if e.id == id then { e with deletedAt := none } else e)

/-- The `delete` audit event of `sync.rs` lines 192-205: actor id and
display name are taken best-effort from the secondary fetch result,
with `0` and `""` defaults; the name comes from the stored payload. -/
def mkDeleteEvent (now : String) (e : DbElement) (fetched : Option OsmJson) : EventRow :=
  { date := now
    elementId := e.id
    elementName := (tagGet e.data.tags "name").getD "Unnamed element"
    eventType := "delete"
    userId := (fetched.map (fun it => it.uid.getD 0)).getD 0
    userName := (fetched.map (fun it => it.user.getD "")).getD "" }

/-- Outcome of the deletion-pass body for one stored element. -/
inductive DelStep
  | panicked
  | fatalExit
  | deleted (ev : EventRow)
deriving DecidableEq

/-- The body of the deletion loop of `sync.rs` lines 154-215, for one
stored element that is absent from the fresh ids and not yet deleted.
`fetched` is the result of the secondary `fetch_element` call.
`deleted_from_osm` is false both when the record is visible and when
the fetch returned nothing (`!opt.map(..).unwrap_or(true)`), so a
failed fetch reaches the `fresh_element.clone().unwrap()` call at line
162 and panics; a visible record whose `currency:XBT` or
`payment:bitcoin` tag is `"yes"` reaches `std::process::exit(1)` at
line 177. -/
def deletionStep (now : String) (e : DbElement) (fetched : Option OsmJson) : DelStep :=
  let deletedFromOsm := !((fetched.map (fun it => it.visible.getD true)).getD true)
  if !deletedFromOsm then
    match fetched with
    | none => .panicked
    | some f =>
        if ((tagGet f.tags "currency:XBT").getD "no" == "yes"
            || (tagGet f.tags "payment:bitcoin").getD "no" == "yes") then
          .fatalExit
        else
          .deleted (mkDeleteEvent now e fetched)
  else
    .deleted (mkDeleteEvent now e fetched)

/-- Outcome of a whole pass: a panic unwinds the cycle, a fatal exit
terminates the process; either way the transaction is never
committed. -/
inductive PassOutcome (α : Type)
  | panicked
  | fatalExit
  | ok (val : α)
deriving DecidableEq

/-- The deletion pass of `sync.rs` lines 142-217: iterate over the
loaded snapshot; for each element missing from the fresh ids and not
already soft-deleted, run `deletionStep`; on success stage the delete
event and the `deleted_at` update in the transaction and count the
deletion. -/
def deletionPass (freshIds : List String) (oracle : String → Option OsmJson) (now : String) :
    List DbElement → List DbElement × List EventRow × Nat →
    PassOutcome (List DbElement × List EventRow × Nat)
  | [], acc => .ok acc
  | e :: rest, (db, evs, n) =>
      if !(freshIds.contains e.id) && e.deletedAt.isNone then
        match deletionStep now e (oracle e.id) with
        | .panicked => .panicked
        | .fatalExit => .fatalExit
        | .deleted ev =>
            deletionPass freshIds oracle now rest (setDeleted db e.id now, evs ++ [ev], n + 1)
      else
        deletionPass freshIds oracle now rest (db, evs, n)

/-- The `create`/`update` audit events of `sync.rs` lines 239-252 and
289-302: element key, fresh name (default `"Unnamed element"`), actor
id and display name from the fresh item (defaults `0` and `""`). -/
def mkChangeEvent (now kind : String) (f : OsmJson) : EventRow :=
  { date := now
    elementId := btcmapId f
    elementName := (tagGet f.tags "name").getD "Unnamed element"
    eventType := kind
    userId := f.uid.getD 0
    userName := f.user.getD "" }

/-- The body of the upsert loop of `sync.rs` lines 219-321 for one
fresh item.  The lookup runs against the snapshot loaded before the
passes (`elements.iter().find(..)`); writes go to the live table.  A
stored match with a different payload gets one update event and a data
overwrite; a stored match that was soft-deleted gets `deleted_at`
cleared; a missing key gets one create event and an insert. -/
def upsertStep (now : String) (snapshot : List DbElement) :
    List DbElement × List EventRow × Nat × Nat → OsmJson →
    List DbElement × List EventRow × Nat × Nat
  | (db, evs, created, updated), f =>
  let bid := btcmapId f
  match snapshot.find? (fun it => it.id == bid) with
  | some e =>
      let db1 := if e.data = f then db else setData db bid f
      let evs1 := if e.data = f then evs else evs ++ [mkChangeEvent now "update" f]
      let updated1 := if e.data = f then updated else updated + 1
      let db2 := if e.deletedAt.isSome then clearDeleted db1 bid else db1
      (db2, evs1, created, updated1)
  | none =>
      (db ++ [{ id := bid, data := f, deletedAt := none }],
       evs ++ [mkChangeEvent now "create" f], created + 1, updated)

/-- The upsert pass: fold `upsertStep` over the fresh dataset. -/
def upsertPass (now : String) (snapshot : List DbElement)
    (st : List DbElement × List EventRow × Nat × Nat) (fs : List OsmJson) :
    List DbElement × List EventRow × Nat × Nat :=
  fs.foldl (upsertStep now snapshot) st

/-- The operational notification sent when the fetched dataset is
implausibly small (`sync.rs` line 91, typo preserved). -/
def tooSmallMsg : String := "Got a suspicious resopnse from OSM, check server logs"

/-- Result of one reconciliation cycle.  `tooSmall` is the early
return before the transaction is opened, carrying the Discord
notification; `fatalExit` is `std::process::exit(1)`; `panicked` is an
unwinding panic; only `committed` reaches `tx.commit()`. -/
inductive SyncResult
  | tooSmall (notification : String)
  | fatalExit
  | panicked
  | committed (db : List DbElement) (events : List EventRow)
      (created updated deleted : Nat) (reports : List SyncReport)
deriving DecidableEq

/-- The reconciliation cycle of `sync.rs` from the dataset-size guard
(line 89) to the commit (line 414), over an already fetched and parsed
dataset `fs`.  `stored` is the content of the `element` table (equal
to the snapshot the cycle loads), `oracle` the secondary OSM fetch
keyed by element id, `reports` the `report` table. -/
def sync (fs : List OsmJson) (stored : List DbElement)
    (oracle : String → Option OsmJson) (now today yearAgo : String)
    (reports : List SyncReport) : SyncResult :=
  if fs.length < 5000 then
    .tooSmall tooSmallMsg
  else
    let freshIds := fs.map btcmapId
    match deletionPass freshIds oracle now stored (stored, [], 0) with
    | .panicked => .panicked
    | .fatalExit => .fatalExit
    | .ok (db, evs, deleted) =>
        let (db2, evs2, created, updated) := upsertPass now stored (db, evs, 0, 0) fs
        .committed db2 evs2 created updated deleted
          (syncReportStep reports today (computeStats yearAgo fs) created updated deleted)

/-- Whether the cycle reached `db_conn.transaction()` (line 116): only
the dataset-size early return happens before it. -/
def SyncResult.txOpened : SyncResult → Bool
  | .tooSmall _ => false
  | _ => true

/-- Whether the cycle called `std::process::exit`. -/
def SyncResult.processExited : SyncResult → Bool
  | .fatalExit => true
  | _ => false

/-- The committed writes of the cycle, if the transaction committed. -/
def SyncResult.committedState :
    SyncResult → Option (List DbElement × List EventRow × Nat × Nat × Nat × List SyncReport)
  | .committed db evs c u d r => some (db, evs, c, u, d, r)
  | _ => none

/-- A coordinate pair.  The Rust code stores `f64` degrees; the exact
values only feed the abstract containment predicates, so they are kept
as exact rationals. -/
structure Coord where
  lat : Rat
  lon : Rat
deriving DecidableEq

/-- The GeoJSON geometry kinds `generate_reports.rs` lines 98-120
dispatches on; every other kind falls into the `_ => continue` arm. -/
inductive GeoKind
  | multiPolygon
  | polygon
  | lineString
  | unsupported
deriving DecidableEq

/-- One geometry of an area boundary.  The point-in-geometry test is
`geo::Contains::contains`, an external crate, so it is embedded as an
abstract boolean predicate attached to the geometry. -/
structure Geometry where
  kind : GeoKind
  containsCoord : Coord → Bool

/-- Whether the loop of lines 97-122 tests this geometry at all, and
the result of that test: the three supported kinds consult the
containment predicate, every other kind is skipped. -/
def geomMatches (g : Geometry) (c : Coord) : Bool :=
  match g.kind with
  | .multiPolygon => g.containsCoord c
  | .polygon => g.containsCoord c
  | .lineString => g.containsCoord c
  | .unsupported => false

/-- One element as the report generator sees it.  `upToDate` embeds
`OverpassElement::up_to_date()` and `verificationDate` embeds
`OverpassElement::verification_date()` (as a unix timestamp); both
accessors live outside `src/` and are Modelled from the spec as
per-element data: the freshness flag derived from the most recent
survey/verification tag, and the optional verification date. -/
structure ReportElement where
  id : Int
  coord : Coord
  tags : TagMap
  upToDate : Bool
  verificationDate : Option Int
  deletedAt : Option Int
deriving DecidableEq

/-- Modelled from the spec: `OverpassElement::tag(name)` (not under
`src/`), the typed accessor for one tag value, empty when absent. -/
def ReportElement.tagValue (e : ReportElement) (k : String) : String :=
  (tagGet e.tags k).getD ""

/-- A value of a report tag set: a count or a formatted timestamp.
`timestamp t` stands for the ISO-8601 rendering of the instant `t`;
the rendering is injective, so equality of rendered strings is
equality of these values. -/
inductive TagValue
  | num (n : Nat)
  | timestamp (t : Int)
deriving DecidableEq

/-- Lookup in an assembled report tag set. -/
def tagsGet (tags : List (String × TagValue)) (k : String) : Option TagValue :=
  (tags.find? (fun p => p.fst == k)).map Prod.snd

/-- The verification dates the average is taken over
(`generate_reports.rs` lines 252-266): the defined verification dates
of the elements, keeping only those not later than `now`. -/
def verificationDates (now : Int) (elements : List ReportElement) : List Int :=
  (elements.filterMap (fun e => e.verificationDate)).filter (fun t => decide (t ≤ now))

/-- The call `OffsetDateTime::from_unix_timestamp` succeeds exactly on this
range (years -9999 to 9999); outside it the tag is skipped. -/
def tsRepresentable (t : Int) : Bool :=
  decide (-377705116800 ≤ t) && decide (t ≤ 253402300799)

/-- The function `generate_report_tags` of `generate_reports.rs` lines 182-286: the
fixed counts in insertion order, then the average verification date
when at least one non-future verification date exists.  The two `f64`
steps are modelled as exact arithmetic: the percentage is the
truncated rational `up * 100 / total` (`0` for an empty set, as the
`NaN as i64` cast yields `0`), and the average is the sum divided by
the count truncated toward zero (`as i64`), which is exact whenever
the claim constrains it. -/
def generate_report_tags (now : Int) (elements : List ReportElement) :
    List (String × TagValue) :=
  let atms := elements.filter (fun e => e.tagValue "amenity" == "atm")
  let onchain := elements.filter (fun e => e.tagValue "payment:onchain" == "yes")
  let lightning := elements.filter (fun e => e.tagValue "payment:lightning" == "yes")
  let lightningContactless :=
    elements.filter (fun e => e.tagValue "payment:lightning_contactless" == "yes")
  let legacy := elements.filter (fun e => e.tagValue "payment:bitcoin" == "yes")
  let upToDate := elements.filter (fun e => e.upToDate)
  let outdated := elements.filter (fun e => !e.upToDate)
  let upToDatePercent : Nat :=
    if elements.length = 0 then 0 else upToDate.length * 100 / elements.length
  let base : List (String × TagValue) :=
    [("total_elements", .num elements.length),
     ("total_atms", .num atms.length),
     ("total_elements_onchain", .num onchain.length),
     ("total_elements_lightning", .num lightning.length),
     ("total_elements_lightning_contactless", .num lightningContactless.length),
     ("up_to_date_elements", .num upToDate.length),
     ("outdated_elements", .num outdated.length),
     ("legacy_elements", .num legacy.length),
     ("up_to_date_percent", .num upToDatePercent)]
  let ds := verificationDates now elements
  if ds.length > 0 then
    let avg := Int.tdiv ds.sum (ds.length : Int)
    if tsRepresentable avg then
      base ++ [("avg_verification_date", .timestamp avg)]
    else
      base
  else
    base

/-- The collection loop of `generate_reports.rs` lines 96-123: for
each element, for each geometry, if the geometry is of a supported
kind and contains the element coordinate, push the element — once per
containing geometry, with no deduplication. -/
def collectAreaElements (gs : List Geometry) (elements : List ReportElement) :
    List ReportElement :=
  elements.flatMap (fun e =>
    gs.filterMap (fun g => if geomMatches g e.coord then some e else none))

/-- The `geo_json` tag of an area as the generator inspects it:
absent-or-null (`continue`), an object that fails GeoJSON parsing
(`continue`), present but not an object (falls through with no
collected elements), or an object parsed into its geometries. -/
inductive GeoJsonTag
  | absent
  | invalid
  | notObject
  | geoms (gs : List Geometry)

/-- An area row: id, the `url_alias` tag, the `geo_json` tag and the
soft-deletion timestamp. -/
structure Area where
  id : Int
  urlAlias : Option String
  geoJson : GeoJsonTag
  deletedAt : Option Int

/-- One row of the report table of the generator era. -/
structure ReportRow where
  areaId : Int
  date : String
  tags : List (String × TagValue)
deriving DecidableEq

/-- Modelled from the spec: `Report::select_by_date` (not under
`src/`) returns the stored reports whose date is the given one. -/
def selectReportsByDate (date : String) (reports : List ReportRow) : List ReportRow :=
  reports.filter (fun r => r.date == date)

/-- Modelled from the spec: `Report::select_latest_by_area_id` (not
under `src/`) returns the most recently created report of the area;
rows are kept in creation order, so it is the last matching row. -/
def selectLatestByAreaId (areaId : Int) (reports : List ReportRow) : Option ReportRow :=
  (reports.filter (fun r => r.areaId == areaId)).getLast?

/-- Modelled from the spec: `Report::insert` (not under `src/`)
appends a new report row for the area and date. -/
def insertReport (areaId : Int) (date : String) (tags : List (String × TagValue))
    (reports : List ReportRow) : List ReportRow :=
  reports ++ [{ areaId := areaId, date := date, tags := tags }]

/-- The write policy of `generate_reports.rs` lines 133-149: with no
report history insert; otherwise insert only when the tag set differs
from the latest stored report of the area. -/
def reportWrite (areaId : Int) (today : String) (newTags : List (String × TagValue))
    (reports : List ReportRow) : List ReportRow :=
  match selectLatestByAreaId areaId reports with
  | none => insertReport areaId today newTags reports
  | some latest =>
      if newTags ≠ latest.tags then insertReport areaId today newTags reports
      else reports

/-- The per-area body of the generator loop (`generate_reports.rs`
lines 45-150): the area aliased `earth` reports over the full element
snapshot unconditionally; otherwise an absent/null or unparsable
`geo_json` skips the area, a non-object `geo_json` leaves the
collected list empty, and an object yields the geometry-collected
elements, all three feeding the compare-then-insert write policy. -/
def areaReportStep (now : Int) (today : String) (elements : List ReportElement)
    (reports : List ReportRow) (area : Area) : List ReportRow :=
  if area.urlAlias == some "earth" then
    insertReport area.id today (generate_report_tags now elements) reports
  else
    match area.geoJson with
    | .absent => reports
    | .invalid => reports
    | .notObject => reportWrite area.id today (generate_report_tags now []) reports
    | .geoms gs =>
        reportWrite area.id today
          (generate_report_tags now (collectAreaElements gs elements)) reports

/-- The function `run` of `generate_reports.rs` lines 20-156: abort with no writes
when any report already exists for today; otherwise fold the per-area
step over the non-deleted areas, against the non-deleted element
snapshot. -/
def generate_reports_run (now : Int) (today : String) (reportsDb : List ReportRow)
    (allElements : List ReportElement) (allAreas : List Area) : List ReportRow :=
  let todayReports := selectReportsByDate today reportsDb
  if todayReports.isEmpty then
    let elements := allElements.filter (fun e => e.deletedAt.isNone)
    let areas := allAreas.filter (fun a => a.deletedAt.isNone)
    areas.foldl (areaReportStep now today elements) reportsDb
  else
    reportsDb

/- Helper lemmas about the store-update primitives. -/

theorem setData_map_id (db : List DbElement) (bid : String) (f : OsmJson) :
    (setData db bid f).map DbElement.id = db.map DbElement.id := by
  unfold setData
  rw [List.map_map]
  apply List.map_congr_left
  intro e _
  simp only [Function.comp_apply]
  split <;> rfl

theorem clearDeleted_map_id (db : List DbElement) (bid : String) :
    (clearDeleted db bid).map DbElement.id = db.map DbElement.id := by
  unfold clearDeleted
  rw [List.map_map]
  apply List.map_congr_left
  intro e _
  simp only [Function.comp_apply]
  split <;> rfl

theorem clearDeleted_clears (db : List DbElement) (bid : String) :
    ∀ r ∈ clearDeleted db bid, r.id = bid → r.deletedAt = none := by
  intro r hr hid
  unfold clearDeleted at hr
  obtain ⟨r0, _, rfl⟩ := List.mem_map.mp hr
  by_cases h : (r0.id == bid) = true
  · simp [h]
  · simp [h] at hid ⊢
    simp only [beq_iff_eq] at h
    exact absurd hid h

/-- C4: for a fresh item whose stored entity exists, is not
soft-deleted, and whose serialized payload equals the stored one, the
upsert body stages no write at all: no audit event, no data update, no
counter change, the element table unchanged. -/
theorem upsert_identical_payload_noop (now : String) (snapshot db : List DbElement)
    (evs : List EventRow) (c u : Nat) (f : OsmJson) (e : DbElement)
    (hfind : snapshot.find? (fun it => it.id == btcmapId f) = some e)
    (hdel : e.deletedAt = none) (hdata : e.data = f) :
    upsertStep now snapshot (db, evs, c, u) f = (db, evs, c, u) := by
  unfold upsertStep
  simp [hfind, hdata, hdel]

def osmW : OsmJson :=
  { osmType := "node", osmId := 7, tags := [("name", "Block Bar")],
    uid := some 3, user := some "sat", visible := none }

def dbW : DbElement := { id := "node:7", data := osmW, deletedAt := none }

/-- Witness for C4 at a concrete store and fresh item. -/
theorem upsert_identical_payload_noop_witness :
    upsertStep "2024-01-01T00:00:00Z" [dbW] ([dbW], [], 0, 0) osmW = ([dbW], [], 0, 0) :=
  upsert_identical_payload_noop "2024-01-01T00:00:00Z" [dbW] [dbW] [] 0 0 osmW dbW
    (by decide) rfl rfl

/-- C5: for a fresh item whose stored entity exists and was previously
soft-deleted, the upsert body clears `deleted_at` on that key (whether
or not the payload also changed), inserts no new row and keeps every
external key, emits at most one audit event, and emits none when the
payload is unchanged; the create counter is untouched. -/
theorem upsert_revival_clears_deleted (now : String) (snapshot db : List DbElement)
    (evs : List EventRow) (c u : Nat) (f : OsmJson) (e : DbElement) (d : String)
    (db2 : List DbElement) (evs2 : List EventRow) (c2 u2 : Nat)
    (hfind : snapshot.find? (fun it => it.id == btcmapId f) = some e)
    (hdel : e.deletedAt = some d)
    (hstep : upsertStep now snapshot (db, evs, c, u) f = (db2, evs2, c2, u2)) :
    db2.map DbElement.id = db.map DbElement.id
    ∧ (∀ r ∈ db2, r.id = btcmapId f → r.deletedAt = none)
    ∧ evs2.length ≤ evs.length + 1
    ∧ (e.data = f → evs2 = evs)
    ∧ c2 = c := by
  by_cases hdf : e.data = f
  · simp only [upsertStep, hfind, hdel, hdf, Option.isSome_some, ite_true,
      Prod.mk.injEq] at hstep
    obtain ⟨rfl, rfl, rfl, rfl⟩ := hstep
    exact ⟨clearDeleted_map_id db (btcmapId f),
           clearDeleted_clears db (btcmapId f),
           Nat.le_succ _,
           fun _ => rfl,
           rfl⟩
  · simp only [upsertStep, hfind, hdel, hdf, Option.isSome_some, ite_true, ite_false,
      Prod.mk.injEq] at hstep
    obtain ⟨rfl, rfl, rfl, rfl⟩ := hstep
    refine ⟨?_, clearDeleted_clears _ (btcmapId f), ?_, fun h => absurd h hdf, rfl⟩
    · rw [clearDeleted_map_id, setData_map_id]
    · simp

def dbW2 : DbElement := { id := "node:7", data := osmW, deletedAt := some "2023-01-01" }

def dbW2r : DbElement := { id := "node:7", data := osmW, deletedAt := none }

/-- Witness for C5: a soft-deleted stored entity reappears unchanged;
the step yields exactly the revived row and no event. -/
theorem upsert_revival_clears_deleted_witness :
    [dbW2r].map DbElement.id = [dbW2].map DbElement.id
    ∧ (∀ r ∈ [dbW2r], r.id = btcmapId osmW → r.deletedAt = none)
    ∧ ([] : List EventRow).length ≤ ([] : List EventRow).length + 1
    ∧ (dbW2.data = osmW → ([] : List EventRow) = [])
    ∧ 0 = 0 :=
  upsert_revival_clears_deleted "2024-01-01T00:00:00Z" [dbW2] [dbW2] [] 0 0 osmW dbW2
    "2023-01-01" [dbW2r] [] 0 0 (by decide) rfl (by decide)

/-- C9: a fetched dataset of fewer than 5000 elements makes the cycle
return before the transaction is opened, with no writes committed, no
process exit, and the operational Discord notification sent. -/
theorem sync_small_dataset_aborts_before_tx (fs : List OsmJson) (stored : List DbElement)
    (oracle : String → Option OsmJson) (now today yearAgo : String)
    (reports : List SyncReport) (hsmall : fs.length < 5000) :
    sync fs stored oracle now today yearAgo reports = .tooSmall tooSmallMsg
    ∧ (sync fs stored oracle now today yearAgo reports).txOpened = false
    ∧ (sync fs stored oracle now today yearAgo reports).processExited = false
    ∧ (sync fs stored oracle now today yearAgo reports).committedState = none := by
  have h : sync fs stored oracle now today yearAgo reports = .tooSmall tooSmallMsg := by
    unfold sync
    rw [if_pos hsmall]
  refine ⟨h, ?_, ?_, ?_⟩ <;> rw [h] <;> rfl

/-- Witness for C9 at the empty dataset. -/
theorem sync_small_dataset_aborts_before_tx_witness :
    sync [] [] (fun _ => none) "n" "t" "y" [] = .tooSmall tooSmallMsg
    ∧ (sync [] [] (fun _ => none) "n" "t" "y" []).txOpened = false
    ∧ (sync [] [] (fun _ => none) "n" "t" "y" []).processExited = false
    ∧ (sync [] [] (fun _ => none) "n" "t" "y" []).committedState = none :=
  sync_small_dataset_aborts_before_tx [] [] (fun _ => none) "n" "t" "y" [] (by decide)

/-- C1: evaluation of the sync filters at an element carrying both a
`survey:date` and a `check_date` older than one year: the element
passes neither the up-to-date filter nor the outdated filter, so the
two sets do not partition the dataset as the up-to-date test requires. -/
theorem sync_both_tags_stale_uncounted :
    upToDateSync "2022-06-01" [("survey:date", "2020-01-01"), ("check_date", "2020-01-01")] = false
    ∧ outdatedSync "2022-06-01" [("survey:date", "2020-01-01"), ("check_date", "2020-01-01")] = false := by
  exact ⟨rfl, rfl⟩

def staleFetchElem : DbElement :=
  { id := "node:1",
    data := { osmType := "node", osmId := 1, tags := [("name", "Satoshi Cafe")],
              uid := none, user := none, visible := none },
    deletedAt := none }

/-- C3: evaluation of the deletion pass when the secondary fetch
returns nothing: `deleted_from_osm` computes to `false`, the branch
re-reads the absent record with `unwrap`, and the cycle panics instead
of completing the deletion. -/
theorem deletion_fetch_none_panics :
    deletionStep "2024-01-01T00:00:00Z" staleFetchElem none = .panicked
    ∧ deletionPass ["node:2"] (fun _ => none) "2024-01-01T00:00:00Z"
        [staleFetchElem] ([staleFetchElem], [], 0) = .panicked := by
  exact ⟨rfl, rfl⟩

theorem deletionStep_contradiction_fatal (now : String) (e : DbElement) (f : OsmJson)
    (hvis : f.visible.getD true = true)
    (hbtc : (tagGet f.tags "currency:XBT").getD "no" = "yes"
            ∨ (tagGet f.tags "payment:bitcoin").getD "no" = "yes") :
    deletionStep now e (some f) = .fatalExit := by
  have hb : ((tagGet f.tags "currency:XBT").getD "no" == "yes"
      || (tagGet f.tags "payment:bitcoin").getD "no" == "yes") = true := by
    rcases hbtc with h | h <;> simp [h]
  simp [deletionStep, hvis, hb]

theorem deletionPass_aborts_of_member (freshIds : List String)
    (oracle : String → Option OsmJson) (now : String) (e : DbElement)
    (habs : freshIds.contains e.id = false) (hdel : e.deletedAt = none)
    (hstep : deletionStep now e (oracle e.id) = .fatalExit) :
    ∀ (l : List DbElement), e ∈ l → ∀ acc,
      deletionPass freshIds oracle now l acc = .fatalExit
      ∨ deletionPass freshIds oracle now l acc = .panicked := by
  intro l
  induction l with
  | nil => intro h; cases h
  | cons a rest ih =>
      intro hmem acc
      obtain ⟨db, evs, n⟩ := acc
      rcases List.mem_cons.mp hmem with rfl | hmem2
      · left
        simp only [deletionPass, habs, hdel, Option.isNone_none, Bool.not_false,
          Bool.and_true, Bool.and_self, if_true, ite_true, hstep]
      · by_cases hc : (!(freshIds.contains a.id) && a.deletedAt.isNone) = true
        · simp only [deletionPass, hc, if_true, ite_true]
          cases hsa : deletionStep now a (oracle a.id) with
          | panicked => right; rfl
          | fatalExit => left; rfl
          | deleted ev => exact ih hmem2 _
        · simp only [deletionPass, hc, if_false, ite_false]
          exact ih hmem2 _

/-- C2: a stored entity missing from the fresh dataset and not yet
soft-deleted, for which the secondary source still returns a visible
record carrying `currency:XBT = yes` or `payment:bitcoin = yes`, makes
the cycle abort (deliberate process exit, or an unwinding panic if an
earlier deletion hit one) with the open transaction never committed. -/
theorem sync_contradiction_never_commits
    (fs : List OsmJson) (stored : List DbElement) (oracle : String → Option OsmJson)
    (now today yearAgo : String) (reports : List SyncReport)
    (e : DbElement) (f : OsmJson)
    (hlen : 5000 ≤ fs.length)
    (hmem : e ∈ stored)
    (habs : e.id ∉ fs.map btcmapId)
    (hdel : e.deletedAt = none)
    (horacle : oracle e.id = some f)
    (hvis : f.visible.getD true = true)
    (hbtc : (tagGet f.tags "currency:XBT").getD "no" = "yes"
            ∨ (tagGet f.tags "payment:bitcoin").getD "no" = "yes") :
    (sync fs stored oracle now today yearAgo reports = .fatalExit
     ∨ sync fs stored oracle now today yearAgo reports = .panicked)
    ∧ (sync fs stored oracle now today yearAgo reports).committedState = none := by
  have habs2 : (fs.map btcmapId).contains e.id = false := by
    rw [Bool.eq_false_iff]
    intro hc
    exact habs (List.elem_iff.mp hc)
  have hstep : deletionStep now e (oracle e.id) = .fatalExit := by
    rw [horacle]
    exact deletionStep_contradiction_fatal now e f hvis hbtc
  have habort := deletionPass_aborts_of_member (fs.map btcmapId) oracle now e habs2 hdel
    hstep stored hmem (stored, [], 0)
  have hnotlt : ¬ fs.length < 5000 := Nat.not_lt.mpr hlen
  rcases habort with h | h
  · have hs : sync fs stored oracle now today yearAgo reports = .fatalExit := by
      unfold sync
      rw [if_neg hnotlt]
      simp [h]
    rw [hs]
    exact ⟨Or.inl rfl, rfl⟩
  · have hs : sync fs stored oracle now today yearAgo reports = .panicked := by
      unfold sync
      rw [if_neg hnotlt]
      simp [h]
    rw [hs]
    exact ⟨Or.inr rfl, rfl⟩

def acceptingFresh : OsmJson :=
  { osmType := "node", osmId := 1, tags := [("currency:XBT", "yes")],
    uid := some 4, user := some "mapper", visible := some true }

def bulkFresh : OsmJson :=
  { osmType := "node", osmId := 9, tags := [], uid := none, user := none, visible := none }

/-- Witness for C2: a 5000-element fresh dataset that omits the stored
entity, whose secondary fetch still reports it bitcoin-accepting. -/
theorem sync_contradiction_never_commits_witness :
    (sync (List.replicate 5000 bulkFresh) [staleFetchElem] (fun _ => some acceptingFresh)
        "n" "t" "y" [] = .fatalExit
     ∨ sync (List.replicate 5000 bulkFresh) [staleFetchElem] (fun _ => some acceptingFresh)
        "n" "t" "y" [] = .panicked)
    ∧ (sync (List.replicate 5000 bulkFresh) [staleFetchElem] (fun _ => some acceptingFresh)
        "n" "t" "y" [] |>.committedState) = none :=
  sync_contradiction_never_commits (List.replicate 5000 bulkFresh) [staleFetchElem]
    (fun _ => some acceptingFresh) "n" "t" "y" [] staleFetchElem acceptingFresh
    (by rw [List.length_replicate])
    (List.mem_singleton.mpr rfl)
    (by
      rw [List.map_replicate]
      simp only [List.mem_replicate]
      intro h
      exact absurd h.2 (by decide))
    rfl rfl rfl
    (Or.inl rfl)

/- Counting helpers for the area-collection loop. -/

theorem count_geometry_pushes (gs : List Geometry) (e x : ReportElement) :
    (gs.filterMap (fun g => if geomMatches g e.coord then some e else none)).count x
      = if e = x then (gs.filter (fun g => geomMatches g e.coord)).length else 0 := by
  induction gs with
  | nil => simp
  | cons g gs ih =>
      by_cases hex : e = x
      · subst hex
        by_cases hg : geomMatches g e.coord = true <;>
          simp [List.filterMap_cons, List.filter_cons, List.count_cons, hg, ih]
      · by_cases hg : geomMatches g e.coord = true <;>
          simp [List.filterMap_cons, List.filter_cons, List.count_cons, beq_iff_eq,
            hg, hex, ih]

theorem collect_count (gs : List Geometry) (es : List ReportElement) (x : ReportElement) :
    (collectAreaElements gs es).count x
      = es.count x * (gs.filter (fun g => geomMatches g x.coord)).length := by
  induction es with
  | nil => simp [collectAreaElements]
  | cons e es ih =>
      unfold collectAreaElements at ih ⊢
      rw [List.flatMap_cons, List.count_append, ih, count_geometry_pushes, List.count_cons]
      by_cases hex : e = x
      · subst hex
        rw [if_pos rfl, if_pos (beq_iff_eq.mpr rfl)]
        ring
      · rw [if_neg hex, if_neg (fun hb => hex (eq_of_beq hb))]
        ring

/-- C7 (amended): an element qualifies for a bounded area exactly when
at least one supported geometry of the area contains its coordinate,
and the collection holds one occurrence per containing geometry — an
element inside several geometries is counted once per geometry, not
once. -/
theorem area_membership_and_multiplicity (gs : List Geometry) (es : List ReportElement)
    (x : ReportElement) :
    (x ∈ collectAreaElements gs es ↔ x ∈ es ∧ ∃ g ∈ gs, geomMatches g x.coord = true)
    ∧ (collectAreaElements gs es).count x
        = es.count x * (gs.filter (fun g => geomMatches g x.coord)).length := by
  refine ⟨?_, collect_count gs es x⟩
  unfold collectAreaElements
  rw [List.mem_flatMap]
  constructor
  · rintro ⟨e, he, hx⟩
    rw [List.mem_filterMap] at hx
    obtain ⟨g, hg, hif⟩ := hx
    by_cases hm : geomMatches g e.coord = true
    · rw [if_pos hm] at hif
      obtain rfl := Option.some.inj hif
      exact ⟨he, g, hg, hm⟩
    · rw [if_neg hm] at hif
      cases hif
  · rintro ⟨hx, g, hg, hm⟩
    refine ⟨x, hx, ?_⟩
    rw [List.mem_filterMap]
    exact ⟨g, hg, by rw [if_pos hm]⟩

def containsAll : Geometry := { kind := .polygon, containsCoord := fun _ => true }

def elemP : ReportElement :=
  { id := 1, coord := { lat := 0, lon := 0 }, tags := [], upToDate := true,
    verificationDate := none, deletedAt := none }

/-- Witness for C7 (amended) at one element inside two geometries. -/
theorem area_membership_and_multiplicity_witness :
    (collectAreaElements [containsAll, containsAll] [elemP]).count elemP
      = [elemP].count elemP
          * ([containsAll, containsAll].filter
              (fun g => geomMatches g elemP.coord)).length :=
  (area_membership_and_multiplicity [containsAll, containsAll] [elemP] elemP).2

/-- C7 (counterexample): one element contained by both geometries of
an area is pushed twice, so the report total counts it twice, not
once. -/
theorem area_double_geometry_counts_twice :
    tagsGet (generate_report_tags 0 (collectAreaElements [containsAll, containsAll] [elemP]))
        "total_elements" = some (.num 2)
    ∧ tagsGet (generate_report_tags 0 (collectAreaElements [containsAll, containsAll] [elemP]))
        "total_elements" ≠ some (.num 1) := by
  exact ⟨rfl, by decide⟩

def areaNoBoundary : Area :=
  { id := 7, urlAlias := some "test", geoJson := .absent, deletedAt := none }

def areaEarth : Area :=
  { id := 1, urlAlias := some "earth", geoJson := .absent, deletedAt := none }

/-- C8 (counterexample): a region with no boundary whose alias is not
`earth` is skipped by the generator: a run over one live element and
that region inserts no report at all. -/
theorem boundaryless_area_skipped :
    generate_reports_run 0 "2024-01-01" [] [elemP] [areaNoBoundary] = []
    ∧ areaReportStep 0 "2024-01-01" [elemP] [] areaNoBoundary = [] := by
  exact ⟨rfl, rfl⟩

/-- C8 (amended): only the area aliased `earth` gets the unconditional
report over the full element snapshot; any other area with an absent
or null boundary is skipped for the cycle. -/
theorem earth_reports_full_snapshot_others_skipped :
    (∀ (now : Int) (today : String) (elements : List ReportElement)
        (reports : List ReportRow) (area : Area),
        area.urlAlias = some "earth" →
        areaReportStep now today elements reports area
          = reports ++ [{ areaId := area.id, date := today,
                          tags := generate_report_tags now elements }])
    ∧ (∀ (now : Int) (today : String) (elements : List ReportElement)
        (reports : List ReportRow) (area : Area),
        area.urlAlias ≠ some "earth" → area.geoJson = .absent →
        areaReportStep now today elements reports area = reports) := by
  constructor
  · intro now today elements reports area h
    simp [areaReportStep, h, insertReport]
  · intro now today elements reports area h hg
    have hb : (area.urlAlias == some "earth") = false := by
      rw [Bool.eq_false_iff]
      intro hc
      exact h (eq_of_beq hc)
    simp [areaReportStep, hb, hg]

/-- Witness for C8 (amended) at concrete areas. -/
theorem earth_reports_full_snapshot_others_skipped_witness :
    areaReportStep 0 "2024-01-01" [elemP] [] areaEarth
      = [] ++ [{ areaId := areaEarth.id, date := "2024-01-01",
                 tags := generate_report_tags 0 [elemP] }]
    ∧ areaReportStep 0 "2024-01-01" [elemP] [] areaNoBoundary = [] :=
  ⟨earth_reports_full_snapshot_others_skipped.1 0 "2024-01-01" [elemP] [] areaEarth rfl,
   earth_reports_full_snapshot_others_skipped.2 0 "2024-01-01" [elemP] [] areaNoBoundary
     (by decide) rfl⟩

/-- C10: the average verification date is taken exactly over the
verification dates not later than the current time (future dates are
dropped, not clamped); a singleton remainder makes the reported
average that date exactly, and an empty remainder reports no average
tag at all. -/
theorem avg_verification_excludes_future (now : Int) (es : List ReportElement) :
    (∀ t : Int, t ∈ verificationDates now es ↔
        t ≤ now ∧ ∃ e ∈ es, e.verificationDate = some t)
    ∧ (∀ t0 : Int, verificationDates now es = [t0] → tsRepresentable t0 = true →
        tagsGet (generate_report_tags now es) "avg_verification_date"
          = some (.timestamp t0))
    ∧ (verificationDates now es = [] →
        tagsGet (generate_report_tags now es) "avg_verification_date" = none) := by
  refine ⟨?_, ?_, ?_⟩
  · intro t
    simp [verificationDates, List.mem_filter, List.mem_filterMap, and_comm]
  · intro t0 hds ht
    simp only [generate_report_tags, hds]
    norm_num
    simp [ht, tagsGet, List.find?]
  · intro hds
    simp only [generate_report_tags, hds]
    norm_num
    simp [tagsGet, List.find?]

def vElemPast : ReportElement :=
  { id := 1, coord := { lat := 0, lon := 0 }, tags := [], upToDate := true,
    verificationDate := some 1677283200, deletedAt := none }

def vElemFuture : ReportElement :=
  { id := 2, coord := { lat := 0, lon := 0 }, tags := [], upToDate := true,
    verificationDate := some 1788000000, deletedAt := none }

/-- Witness for C10: with one past and one future verification date
(relative to now = 1678000000) the reported average is the past date
exactly; with only the future date no average tag is reported. -/
theorem avg_verification_excludes_future_witness :
    tagsGet (generate_report_tags 1678000000 [vElemPast, vElemFuture])
        "avg_verification_date" = some (.timestamp 1677283200)
    ∧ tagsGet (generate_report_tags 1678000000 [vElemFuture])
        "avg_verification_date" = none :=
  ⟨(avg_verification_excludes_future 1678000000 [vElemPast, vElemFuture]).2.1 1677283200
      (by decide) (by decide),
   (avg_verification_excludes_future 1678000000 [vElemFuture]).2.2 (by decide)⟩

/-- C6: generator and sync-era report writes are idempotent against an
unchanged snapshot: a run aborts with no writes when any report for
today already exists; a bounded area whose freshly computed tag set
equals its latest stored report inserts nothing; and the sync-era
variant updates the unique existing `("", today)` row in place — a
zero-delta update leaves the table unchanged, any update keeps the row
count and adds the deltas onto the stored counters. -/
theorem report_generation_idempotent :
    (∀ (now : Int) (today : String) (reportsDb : List ReportRow)
        (allElements : List ReportElement) (allAreas : List Area),
        (selectReportsByDate today reportsDb).isEmpty = false →
        generate_reports_run now today reportsDb allElements allAreas = reportsDb)
    ∧ (∀ (now : Int) (today : String) (elements : List ReportElement)
        (reports : List ReportRow) (area : Area) (gs : List Geometry) (latest : ReportRow),
        area.urlAlias ≠ some "earth" →
        area.geoJson = .geoms gs →
        selectLatestByAreaId area.id reports = some latest →
        latest.tags = generate_report_tags now (collectAreaElements gs elements) →
        areaReportStep now today elements reports area = reports)
    ∧ (∀ (reports : List SyncReport) (today : String) (stats : ReportStats)
        (c u d : Nat) (r : SyncReport),
        reports.find? (fun q => q.areaId == "" && q.date == today) = some r →
        (∀ q ∈ reports, (q.areaId == "" && q.date == today) = true → q = r) →
        syncReportStep reports today stats 0 0 0 = reports
        ∧ (syncReportStep reports today stats c u d).length = reports.length) := by
  refine ⟨?_, ?_, ?_⟩
  · intro now today reportsDb allElements allAreas h
    simp [generate_reports_run, h]
  · intro now today elements reports area gs latest halias hgeo hlatest htags
    have hb : (area.urlAlias == some "earth") = false := by
      rw [Bool.eq_false_iff]
      intro hc
      exact halias (eq_of_beq hc)
    simp [areaReportStep, hb, hgeo, reportWrite, hlatest, htags]
  · intro reports today stats c u d r hfind huniq
    have hmap : reports.map (fun q =>
        if q.areaId == "" && q.date == today then
          { q with
              elementsCreated := 0 + r.elementsCreated
              elementsUpdated := 0 + r.elementsUpdated
              elementsDeleted := 0 + r.elementsDeleted }
        else q) = reports.map id := by
      apply List.map_congr_left
      intro q hq
      by_cases hc : (q.areaId == "" && q.date == today) = true
      · rw [if_pos hc]
        rw [huniq q hq hc]
        simp
      · rw [if_neg hc]
        rfl
    constructor
    · simp only [syncReportStep, hfind, hmap, List.map_id]
    · simp only [syncReportStep, hfind]
      exact List.length_map _ _

def rowToday : ReportRow := { areaId := 3, date := "2024-01-02", tags := [] }

def areaGeom : Area :=
  { id := 3, urlAlias := some "spain", geoJson := .geoms [], deletedAt := none }

def latestRow : ReportRow :=
  { areaId := 3, date := "2024-01-01", tags := generate_report_tags 0 [] }

def srRow : SyncReport :=
  { areaId := "", date := "2024-01-02", totalElements := 9, totalOnchain := 1,
    totalLightning := 2, totalLightningContactless := 3, upToDateElements := 4,
    outdatedElements := 5, legacyElements := 6, elementsCreated := 2,
    elementsUpdated := 3, elementsDeleted := 4 }

def statsW : ReportStats := computeStats "2023-01-02" []

/-- Witness for C6 at concrete rows: a run against a day that already
has a report, an area whose fresh tags equal the latest report, and a
zero-delta and a nonzero-delta counter update of the sync row. -/
theorem report_generation_idempotent_witness :
    generate_reports_run 0 "2024-01-02" [rowToday] [] [] = [rowToday]
    ∧ areaReportStep 0 "2024-01-02" [] [latestRow] areaGeom = [latestRow]
    ∧ syncReportStep [srRow] "2024-01-02" statsW 0 0 0 = [srRow]
    ∧ (syncReportStep [srRow] "2024-01-02" statsW 5 6 7).length = 1 :=
  ⟨report_generation_idempotent.1 0 "2024-01-02" [rowToday] [] [] (by decide),
   report_generation_idempotent.2.1 0 "2024-01-02" [] [latestRow] areaGeom [] latestRow
     (by decide) rfl (by decide) rfl,
   (report_generation_idempotent.2.2 [srRow] "2024-01-02" statsW 5 6 7 srRow (by decide)
     (fun q hq _ => List.mem_singleton.mp hq)).1,
   ((report_generation_idempotent.2.2 [srRow] "2024-01-02" statsW 5 6 7 srRow (by decide)
     (fun q hq _ => List.mem_singleton.mp hq)).2).trans rfl⟩

end Btcmap
